import Mathlib

/-!
Verification of the lensloft photo-sharing application (`src/app.py`)
against its natural-language specification.

The Flask handlers are shallowly embedded: each route handler becomes a
Lean function from its request data and an explicit database state to a
response and an updated state.  External collaborators are modelled at
their call boundary:

* a decoded PIL image is represented by the observables the code reads
  from it (`img.size`, the mean of the luminance channel, and the pixel
  of the 1×1 downsample);
* the TextBlob sentiment estimator is a parameter `polarity : String → ℚ`;
* the werkzeug password hash and `secure_filename` are string-function
  parameters;
* SQLAlchemy tables are Lean lists of row structures, and the SQL
  `ILIKE` operator is modelled by a case-folded `LIKE` pattern matcher
  (`%` matches any sequence, `_` any single character, as in
  Postgres/SQLite).
-/

/-- A decoded raster image, abstracted to the observables `analyze_image`
reads from PIL: `img.size`, `ImageStat.Stat(img.convert("L")).mean[0]`,
and `img.resize((1, 1)).getpixel((0, 0))`. -/
structure PILImage where
  width : Nat
  height : Nat
  meanLum : ℚ
  avgR : Nat
  avgG : Nat
  avgB : Nat
deriving DecidableEq

/-- First tag of `analyze_image`: `"HD" if w * h > 1_000_000 else "SD"`
(src/app.py line 93). -/
def resolutionTag (img : PILImage) : String :=
  if img.width * img.height > 1000000 then "HD" else "SD"

/-- Second tag of `analyze_image` (src/app.py lines 95–101): `"Bright ☀️"`
if the mean luminance exceeds 150, `"Dark 🌙"` if it is below 80, else
`"Neutral ☁️"`. -/
def brightnessTag (img : PILImage) : String :=
  if img.meanLum > 150 then "Bright ☀️"
  else if img.meanLum < 80 then "Dark 🌙"
  else "Neutral ☁️"

/-- Third tag of `analyze_image` (src/app.py lines 103–109): `"Warm 🔴"`
if red is strictly greatest in the 1×1 downsample, `"Cool 🔵"` if blue is
strictly greatest, else `"Balanced 🎨"`. -/
def toneTag (img : PILImage) : String :=
  if img.avgR > img.avgG ∧ img.avgR > img.avgB then "Warm 🔴"
  else if img.avgB > img.avgR ∧ img.avgB > img.avgG then "Cool 🔵"
  else "Balanced 🎨"

/-- `analyze_image` (src/app.py lines 87–111): the three bucket tags
joined with `" | "`. -/
def analyze_image (img : PILImage) : String :=
  String.intercalate " | " [resolutionTag img, brightnessTag img, toneTag img]

/-- The resolution-bucket tag strings the code can emit. -/
def resTags : List String := ["HD", "SD"]

/-- The brightness-bucket tag strings the code can emit. -/
def briTags : List String := ["Bright ☀️", "Dark 🌙", "Neutral ☁️"]

/-- The tone-bucket tag strings the code can emit. -/
def toneTags : List String := ["Warm 🔴", "Cool 🔵", "Balanced 🎨"]

/-- A persisted `Comment` row. -/
structure CommentRow where
  text : String
  user_id : Nat
  photo_id : Nat
deriving DecidableEq

/-- A JSON response of the comment handler: `success`, and the optional
`message` field (`jsonify(success=..., message=...)`). -/
structure CommentResp where
  success : Bool
  message : Option String
deriving DecidableEq

/-- The `POST /comment/<photo_id>` handler (src/app.py lines 230–243).
`polarity` models `TextBlob(text).sentiment.polarity`; `text` is
`request.form.get("text")` (`none` when the field is absent).  Python's
`if not text` treats both `None` and `""` as falsy. -/
def comment (polarity : String → ℚ) (uid photoId : Nat)
    (text : Option String) (st : List CommentRow) :
    CommentResp × List CommentRow :=
  match text with
  | none => (⟨false, none⟩, st)
  | some t =>
    if t = "" then (⟨false, none⟩, st)
    else if polarity t < -3/10 then (⟨false, some "Negative blocked"⟩, st)
    else (⟨true, none⟩, st ++ [⟨t, uid, photoId⟩])

/-- A `Like` or `Save` relation row: the join of (user, photo). -/
structure RelRow where
  user_id : Nat
  photo_id : Nat
deriving DecidableEq

/-- The filter `filter_by(user_id=..., photo_id=...)` on a relation row. -/
def isPair (uid pid : Nat) (r : RelRow) : Bool :=
  r.user_id == uid && r.photo_id == pid

/-- `db.session.delete(obj)` where `obj` is the row returned by
`.first()`: remove the first matching row. -/
def deleteFirstRow (uid pid : Nat) : List RelRow → List RelRow
  | [] => []
  | r :: rs => if isPair uid pid r then rs else r :: deleteFirstRow uid pid rs

/-- The `POST /like/<photo_id>` handler (src/app.py lines 204–215):
if a row for (current_user, photo) exists delete it and report `false`,
otherwise insert one and report `true`. -/
def like (uid pid : Nat) (rows : List RelRow) : Bool × List RelRow :=
  match rows.find? (isPair uid pid) with
  | some _ => (false, deleteFirstRow uid pid rows)
  | none => (true, rows ++ [⟨uid, pid⟩])

/-- The `POST /save/<photo_id>` handler (src/app.py lines 217–228);
its body is the like handler's body on the `Save` table. -/
def save (uid pid : Nat) (rows : List RelRow) : Bool × List RelRow :=
  match rows.find? (isPair uid pid) with
  | some _ => (false, deleteFirstRow uid pid rows)
  | none => (true, rows ++ [⟨uid, pid⟩])

/-- Number of relation rows for one (user, photo) pair. -/
def countPair (uid pid : Nat) (rows : List RelRow) : Nat :=
  (rows.filter (isPair uid pid)).length

/-- A sequence of toggle requests (each a (user, photo) pair) applied
in order through the like handler. -/
def applyToggles (ops : List (Nat × Nat)) (rows : List RelRow) : List RelRow :=
  ops.foldl (fun st op => (like op.1 op.2 st).2) rows

/-- A `User` row as created by registration. -/
structure UserRec where
  username : String
  password : String
  role : String
deriving DecidableEq

/-- The POST data of `/register`: `username` and `password` are required
form fields, `role` is read with `request.form.get("role", "consumer")`. -/
structure RegisterForm where
  username : String
  password : String
  role : Option String
deriving DecidableEq

/-- The `POST /register` handler (src/app.py lines 245–256).  `hash`
models werkzeug's `generate_password_hash`. -/
def register_post (hash : String → String) (form : RegisterForm)
    (users : List UserRec) : List UserRec :=
  users ++ [⟨form.username, hash form.password, form.role.getD "consumer"⟩]

/-- An uploaded file: its client-supplied filename and the decoded image.
Werkzeug's `FileStorage` is falsy when its filename is empty. -/
structure UploadFile where
  filename : String
  img : PILImage

/-- The multipart form of `POST /upload`; absent fields are `none`. -/
structure UploadForm where
  photo : Option UploadFile
  title : Option String
  caption : Option String
  location : Option String
  people : Option String

/-- A persisted `Photo` row. -/
structure PhotoRec where
  filename : String
  title : String
  caption : Option String
  location : Option String
  people_present : Option String
  auto_tags : String
  user_id : Nat
deriving DecidableEq

/-- The state the upload pipeline mutates: the `Photo` table and the
names of every byte payload written to the configured sink (Azure blob
container or the local upload folder). -/
structure UploadState where
  photos : List PhotoRec
  blobWrites : List String
deriving DecidableEq

/-- Outcome of a `POST /upload` request. -/
inductive UploadOutcome
  | onlyCreators
  | missingFields
  | uploaded
deriving DecidableEq

/-- The `POST /upload` handler `creator_dashboard` (src/app.py lines
150–202).  `sec` models werkzeug's `secure_filename`, `now` the UTC
timestamp string, `blobConfigured` whether the Azure sink is configured.
Python's `if not file or not title` is falsy for an absent field, an
empty title, and a `FileStorage` with empty filename. -/
def creator_dashboard_post (sec : String → String) (now : String)
    (blobConfigured : Bool) (role : String) (uid : Nat)
    (form : UploadForm) (st : UploadState) : UploadState × UploadOutcome :=
  if role ≠ "creator" then (st, .onlyCreators)
  else
    match form.photo, form.title with
    | some f, some t =>
      if f.filename.isEmpty || t.isEmpty then (st, .missingFields)
      else
        let tags := analyze_image f.img
        let name := now ++ "_" ++ sec f.filename
        let fileUrl := if blobConfigured then "azure://" ++ name
                       else "/static/uploads/" ++ name
        ({ photos := st.photos ++
             [⟨fileUrl, t, form.caption, form.location, form.people, tags, uid⟩],
           blobWrites := st.blobWrites ++ [name] }, .uploaded)
    | _, _ => (st, .missingFields)

/-- SQL `LIKE` pattern matching on case-folded character lists, as both
backends implement it: `%` matches any character sequence, `_` exactly
one character, any other pattern character matches itself. -/
def likeMatch : List Char → List Char → Bool
  | [], s => s.isEmpty
  | p :: pr, s =>
    if p = '%' then (List.tails s).any fun t => likeMatch pr t
    else
      match s with
      | [] => false
      | d :: t => (if p = '_' then true else p == d) && likeMatch pr t

/-- SQLAlchemy's `col.ilike(pattern)`: case-insensitive `LIKE` (both
sides are case-folded before matching). -/
def ilikeB (s pattern : String) : Bool :=
  likeMatch (pattern.data.map Char.toLower) (s.data.map Char.toLower)

/-- A `User` row as the feed's join sees it. -/
structure UserRow where
  id : Nat
  username : String
deriving DecidableEq

/-- A `Photo` row as the feed reads it. -/
structure PhotoRow where
  id : Nat
  title : String
  caption : Option String
  uploaded_at : Nat
  user_id : Nat
deriving DecidableEq

/-- The tables the feed queries. -/
structure FeedDB where
  users : List UserRow
  photos : List PhotoRow

/-- The filter of `Photo.query.join(User).filter(...)` (src/app.py lines
126–130): a photo survives when some joined owner row makes
`title ILIKE s OR caption ILIKE s OR username ILIKE s` true, with
`s = "%" + q + "%"`; a NULL caption never matches. -/
def feedFilterRow (db : FeedDB) (q : String) (p : PhotoRow) : Bool :=
  let s := "%" ++ q ++ "%"
  db.users.any fun u =>
    u.id == p.user_id &&
      (ilikeB p.title s ||
       (match p.caption with
        | none => false
        | some c => ilikeB c s) ||
       ilikeB u.username s)

/-- The feed's ordering relation: `Photo.uploaded_at.desc()`. -/
def newerFirst (a b : PhotoRow) : Prop :=
  b.uploaded_at ≤ a.uploaded_at

instance : DecidableRel newerFirst :=
  fun a b => Nat.decLe b.uploaded_at a.uploaded_at

instance : IsTotal PhotoRow newerFirst :=
  ⟨fun a b => Nat.le_total b.uploaded_at a.uploaded_at⟩

instance : IsTrans PhotoRow newerFirst :=
  ⟨fun _ _ _ h1 h2 => Nat.le_trans h2 h1⟩

/-- The `GET /feed` handler (src/app.py lines 120–133).  `q` is
`request.args.get("q")`; Python's `if q:` sends both an absent and an
empty query to the ordered-by-upload-time branch.  `ORDER BY ... DESC`
is modelled by a sort with respect to `newerFirst`. -/
def feed (db : FeedDB) (q : Option String) : List PhotoRow :=
  match q with
  | some t =>
    if t = "" then List.insertionSort newerFirst db.photos
    else db.photos.filter (feedFilterRow db t)
  | none => List.insertionSort newerFirst db.photos

/-- Prefix test on character lists (`leadsWith hay pat` holds when `pat`
is an initial segment of `hay`). -/
def leadsWith : List Char → List Char → Bool
  | _, [] => true
  | [], _ :: _ => false
  | a :: hs, b :: ps => a == b && leadsWith hs ps

/-- Contiguous-substring test on character lists. -/
def hasSub : List Char → List Char → Bool
  | [], pat => pat.isEmpty
  | a :: t, pat => leadsWith (a :: t) pat || hasSub t pat

/-- Spec-side matcher, following the spec's words: `s` case-insensitively
contains the term `q` as a substring. -/
def ciContains (s q : String) : Bool :=
  hasSub (s.data.map Char.toLower) (q.data.map Char.toLower)

/-- Spec-side feed predicate, following the spec's words: the photo's
title, caption, or owning user's username case-insensitively contains
the search term. -/
def specFeedMatch (db : FeedDB) (q : String) (p : PhotoRow) : Bool :=
  db.users.any fun u =>
    u.id == p.user_id &&
      (ciContains p.title q ||
       (match p.caption with
        | none => false
        | some c => ciContains c q) ||
       ciContains u.username q)

/-- The search term contains no SQL `LIKE` wildcard character. -/
def noWild (l : List Char) : Prop :=
  ∀ c ∈ l, c ≠ '%' ∧ c ≠ '_'

instance (l : List Char) : Decidable (noWild l) :=
  List.decidableBAll _ l

/-- C1: for every comment request with non-empty text, the moderator
rejects exactly when the sentiment polarity is strictly below -0.3; a
rejection carries the message "Negative blocked" and leaves the Comment
table unchanged, while polarity ≥ -0.3 succeeds and appends a Comment
row with that text. -/
theorem comment_moderation_spec (polarity : String → ℚ) (uid pid : Nat)
    (t : String) (st : List CommentRow) (ht : t ≠ "") :
    ((comment polarity uid pid (some t) st).1.success = false ↔
      polarity t < -3/10) ∧
    (polarity t < -3/10 →
      comment polarity uid pid (some t) st =
        (⟨false, some "Negative blocked"⟩, st)) ∧
    (-3/10 ≤ polarity t →
      comment polarity uid pid (some t) st =
        (⟨true, none⟩, st ++ [⟨t, uid, pid⟩])) := by
  by_cases h : polarity t < -3/10
  · simp [comment, ht, h, not_le.2 h]
  · simp [comment, ht, h, not_lt.1 h]

/-- Witness for C1 at a concrete rejected comment. -/
theorem comment_moderation_spec_witness :
    ("bad" ≠ "") ∧
    ((((comment (fun _ => -1) 1 2 (some "bad") []).1.success = false) ↔
        ((-1 : ℚ) < -3/10)) ∧
      ((-1 : ℚ) < -3/10 →
        comment (fun _ => -1) 1 2 (some "bad") [] =
          (⟨false, some "Negative blocked"⟩, [])) ∧
      ((-3/10 : ℚ) ≤ -1 →
        comment (fun _ => -1) 1 2 (some "bad") [] =
          (⟨true, none⟩, [] ++ [⟨"bad", 1, 2⟩]))) :=
  ⟨by decide, comment_moderation_spec (fun _ => -1) 1 2 "bad" [] (by decide)⟩

/-- C9: a comment request with missing or empty text is rejected with a
plain failure (no message field), the Comment table is unchanged, the
result does not depend on the sentiment estimator (it is never invoked),
and the response is distinct from a moderation rejection. -/
theorem comment_missing_text_spec (pol pol' : String → ℚ) (uid pid : Nat)
    (st : List CommentRow) :
    comment pol uid pid none st = (⟨false, none⟩, st) ∧
    comment pol uid pid (some "") st = (⟨false, none⟩, st) ∧
    comment pol uid pid none st = comment pol' uid pid none st ∧
    comment pol uid pid (some "") st = comment pol' uid pid (some "") st ∧
    (comment pol uid pid none st).1.message ≠ some "Negative blocked" ∧
    (comment pol uid pid (some "") st).1.message ≠ some "Negative blocked" := by
  simp [comment]

/-- C10: every non-empty text, whitespace included, passes the
missing-field check and is routed to the sentiment gate; in particular a
whitespace-only comment, whose polarity is 0, is admitted and persisted
as a Comment row. -/
theorem comment_whitespace_admitted_spec (pol : String → ℚ) (uid pid : Nat)
    (t : String) (st : List CommentRow) (ht : t ≠ "") :
    (comment pol uid pid (some t) st =
      if pol t < -3/10 then (⟨false, some "Negative blocked"⟩, st)
      else (⟨true, none⟩, st ++ [⟨t, uid, pid⟩])) ∧
    (pol " " = 0 →
      comment pol uid pid (some " ") st =
        (⟨true, none⟩, st ++ [⟨" ", uid, pid⟩])) := by
  constructor
  · simp [comment, ht]
  · intro h0
    have hws : (" " : String) ≠ "" := by decide
    have : ¬((0 : ℚ) < -3/10) := by norm_num
    simp [comment, hws, h0, this]

/-- Witness for C10 at a concrete whitespace comment with a zero-scoring
estimator. -/
theorem comment_whitespace_admitted_spec_witness :
    ("x" ≠ "") ∧
    ((comment (fun _ => 0) 1 2 (some "x") [] =
        if (0 : ℚ) < -3/10 then (⟨false, some "Negative blocked"⟩, [])
        else (⟨true, none⟩, [] ++ [⟨"x", 1, 2⟩])) ∧
      ((0 : ℚ) = 0 →
        comment (fun _ => 0) 1 2 (some " ") [] =
          (⟨true, none⟩, [] ++ [⟨" ", 1, 2⟩]))) :=
  ⟨by decide, comment_whitespace_admitted_spec (fun _ => 0) 1 2 "x" [] (by decide)⟩

/-- The resolution tag is always one of the two resolution-bucket
strings. -/
theorem resolutionTag_mem (img : PILImage) : resolutionTag img ∈ resTags := by
  unfold resolutionTag resTags
  split <;> simp

/-- The brightness tag is always one of the three brightness-bucket
strings. -/
theorem brightnessTag_mem (img : PILImage) : brightnessTag img ∈ briTags := by
  unfold brightnessTag briTags
  split
  · simp
  · split <;> simp

/-- The tone tag is always one of the three tone-bucket strings. -/
theorem toneTag_mem (img : PILImage) : toneTag img ∈ toneTags := by
  unfold toneTag toneTags
  split
  · simp
  · split <;> simp

/-- C2 counterexample: on a small bright red image the output of
`analyze_image` is not the `" | "`-join of any choice of the plain tags
"HD"/"SD", "Bright"/"Dark"/"Neutral", "Warm"/"Cool"/"Balanced" — the
emitted tags carry emoji suffixes. -/
theorem analyze_image_plain_tags_cex :
    analyze_image ⟨1, 1, 200, 255, 0, 0⟩ ∉
      ["HD | Bright | Warm", "HD | Bright | Cool",
       "HD | Bright | Balanced", "HD | Dark | Warm",
       "HD | Dark | Cool", "HD | Dark | Balanced",
       "HD | Neutral | Warm", "HD | Neutral | Cool",
       "HD | Neutral | Balanced", "SD | Bright | Warm",
       "SD | Bright | Cool", "SD | Bright | Balanced",
       "SD | Dark | Warm", "SD | Dark | Cool", "SD | Dark | Balanced",
       "SD | Neutral | Warm", "SD | Neutral | Cool",
       "SD | Neutral | Balanced"] := by decide

/-- C2 (amended): `analyze_image` always returns the `" | "`-join of
exactly one tag from each of the three buckets as the code spells them
("HD"/"SD", "Bright ☀️"/"Dark 🌙"/"Neutral ☁️",
"Warm 🔴"/"Cool 🔵"/"Balanced 🎨"), in that fixed order. -/
theorem analyze_image_three_tags (img : PILImage) :
    ∃ a ∈ resTags, ∃ b ∈ briTags, ∃ c ∈ toneTags,
      analyze_image img = String.intercalate " | " [a, b, c] :=
  ⟨resolutionTag img, resolutionTag_mem img,
   brightnessTag img, brightnessTag_mem img,
   toneTag img, toneTag_mem img, rfl⟩

/-- C3 counterexample: an image of mean luminance 200 exceeds the Bright
threshold yet its brightness tag is not the plain string "Bright" (the
code emits "Bright ☀️"). -/
theorem brightnessTag_plain_cex :
    (150 : ℚ) < (PILImage.mk 2 2 200 0 0 0).meanLum ∧
      brightnessTag ⟨2, 2, 200, 0, 0, 0⟩ ≠ "Bright" := by decide

/-- C3 (amended): the brightness tag is "Bright ☀️" exactly when the mean
luminance exceeds 150, "Dark 🌙" exactly when it is below 80, and
"Neutral ☁️" otherwise; in particular mean 151 is Bright, means 150 and
80 are Neutral, and mean 79 is Dark. -/
theorem brightnessTag_thresholds (img : PILImage) :
    (brightnessTag img = "Bright ☀️" ↔ 150 < img.meanLum) ∧
    (brightnessTag img = "Dark 🌙" ↔ img.meanLum < 80) ∧
    (brightnessTag img = "Neutral ☁️" ↔
      80 ≤ img.meanLum ∧ img.meanLum ≤ 150) ∧
    brightnessTag ⟨1, 1, 151, 0, 0, 0⟩ = "Bright ☀️" ∧
    brightnessTag ⟨1, 1, 150, 0, 0, 0⟩ = "Neutral ☁️" ∧
    brightnessTag ⟨1, 1, 80, 0, 0, 0⟩ = "Neutral ☁️" ∧
    brightnessTag ⟨1, 1, 79, 0, 0, 0⟩ = "Dark 🌙" := by
  refine ⟨?_, ?_, ?_, by decide, by decide, by decide, by decide⟩
  · by_cases h1 : (150 : ℚ) < img.meanLum
    · simp [brightnessTag, h1]
    · by_cases h2 : img.meanLum < 80 <;> simp [brightnessTag, h1, h2]
  · by_cases h1 : (150 : ℚ) < img.meanLum
    · have h2 : ¬ img.meanLum < 80 := by linarith
      simp [brightnessTag, h1, h2]
    · by_cases h2 : img.meanLum < 80 <;> simp [brightnessTag, h1, h2]
  · by_cases h1 : (150 : ℚ) < img.meanLum
    · simp [brightnessTag, h1]
    · by_cases h2 : img.meanLum < 80
      · simp [brightnessTag, h1, h2]
      · simp [brightnessTag, h1, h2]
        constructor <;> [exact le_of_not_lt h2; exact le_of_not_lt h1]

/-- C4 counterexample: on an image whose average pixel is pure red, red
is strictly greatest yet the tone tag is not the plain string "Warm"
(the code emits "Warm 🔴"). -/
theorem toneTag_plain_cex :
    ((PILImage.mk 2 2 100 200 10 10).avgR > (PILImage.mk 2 2 100 200 10 10).avgG ∧
      (PILImage.mk 2 2 100 200 10 10).avgR > (PILImage.mk 2 2 100 200 10 10).avgB) ∧
      toneTag ⟨2, 2, 100, 200, 10, 10⟩ ≠ "Warm" := by decide

/-- C4 (amended): the tone tag is "Warm 🔴" exactly when the red channel
of the 1×1 downsample strictly exceeds both green and blue, "Cool 🔵"
exactly when blue strictly exceeds both red and green, and "Balanced 🎨"
in every other case (green greatest, all equal, R=B>G ties, ...); in
particular a pure-red pixel is Warm, a pure-blue pixel is Cool, an
all-equal pixel is Balanced, and an R=B>G pixel is Balanced. -/
theorem toneTag_channels (img : PILImage) :
    (toneTag img = "Warm 🔴" ↔ img.avgR > img.avgG ∧ img.avgR > img.avgB) ∧
    (toneTag img = "Cool 🔵" ↔ img.avgB > img.avgR ∧ img.avgB > img.avgG) ∧
    (toneTag img = "Balanced 🎨" ↔
      ¬(img.avgR > img.avgG ∧ img.avgR > img.avgB) ∧
      ¬(img.avgB > img.avgR ∧ img.avgB > img.avgG)) ∧
    toneTag ⟨1, 1, 100, 255, 0, 0⟩ = "Warm 🔴" ∧
    toneTag ⟨1, 1, 100, 0, 0, 255⟩ = "Cool 🔵" ∧
    toneTag ⟨1, 1, 100, 9, 9, 9⟩ = "Balanced 🎨" ∧
    toneTag ⟨1, 1, 100, 9, 3, 9⟩ = "Balanced 🎨" := by
  refine ⟨?_, ?_, ?_, by decide, by decide, by decide, by decide⟩
  · by_cases h1 : img.avgR > img.avgG ∧ img.avgR > img.avgB
    · simp [toneTag, h1]
    · by_cases h2 : img.avgB > img.avgR ∧ img.avgB > img.avgG <;>
        simp [toneTag, h1, h2]
  · by_cases h1 : img.avgR > img.avgG ∧ img.avgR > img.avgB
    · have h2 : ¬(img.avgB > img.avgR ∧ img.avgB > img.avgG) := by
        rintro ⟨hb, _⟩
        exact absurd h1.2 (Nat.not_lt.2 (Nat.le_of_lt hb))
      simp [toneTag, h1, h2]
    · by_cases h2 : img.avgB > img.avgR ∧ img.avgB > img.avgG <;>
        simp [toneTag, h1, h2]
  · by_cases h1 : img.avgR > img.avgG ∧ img.avgR > img.avgB
    · have h2 : ¬(img.avgB > img.avgR ∧ img.avgB > img.avgG) := by
        rintro ⟨hb, _⟩
        exact absurd h1.2 (Nat.not_lt.2 (Nat.le_of_lt hb))
      simp [toneTag, h1, h2]
    · by_cases h2 : img.avgB > img.avgR ∧ img.avgB > img.avgG <;>
        simp [toneTag, h1, h2]

/-- `.first()` returns nothing exactly when no row matches the pair. -/
theorem find?_isPair_eq_none (uid pid : Nat) (rows : List RelRow) :
    rows.find? (isPair uid pid) = none ↔ countPair uid pid rows = 0 := by
  simp [countPair, List.find?_eq_none, List.length_eq_zero,
    List.filter_eq_nil_iff]

/-- Two matching pair predicates agree only on the same pair. -/
theorem isPair_inj {uid pid u p : Nat} {r : RelRow}
    (h1 : isPair uid pid r = true) (h2 : isPair u p r = true) :
    u = uid ∧ p = pid := by
  simp [isPair] at h1 h2
  omega

/-- Deleting the first matching row decrements the pair's row count. -/
theorem countPair_deleteFirstRow_self (uid pid : Nat) (rows : List RelRow) :
    countPair uid pid (deleteFirstRow uid pid rows) =
      countPair uid pid rows - 1 := by
  induction rows with
  | nil => rfl
  | cons r rs ih =>
    by_cases h : isPair uid pid r
    · simp [deleteFirstRow, countPair, h, List.filter_cons]
    · simp only [deleteFirstRow, h, if_neg, Bool.false_eq_true,
        not_false_eq_true, countPair, List.filter_cons_of_neg]
      exact ih

/-- Deleting the first row of one pair leaves every other pair's count
unchanged. -/
theorem countPair_deleteFirstRow_other (uid pid u p : Nat)
    (rows : List RelRow) (hne : ¬(u = uid ∧ p = pid)) :
    countPair u p (deleteFirstRow uid pid rows) = countPair u p rows := by
  induction rows with
  | nil => rfl
  | cons r rs ih =>
    by_cases h : isPair uid pid r
    · have h2 : ¬ isPair u p r := fun hc => hne (isPair_inj h hc)
      simp [deleteFirstRow, countPair, h, List.filter_cons, h2]
    · simp only [deleteFirstRow, h, Bool.false_eq_true, not_false_eq_true,
        if_neg]
      simp only [countPair, List.filter_cons] at ih ⊢
      split <;> simp [ih]

/-- Appending a row adds one to its own pair count and nothing to any
other pair's count. -/
theorem countPair_append_single (u p uid pid : Nat) (rows : List RelRow) :
    countPair u p (rows ++ [⟨uid, pid⟩]) =
      countPair u p rows + (if u = uid ∧ p = pid then 1 else 0) := by
  by_cases h : u = uid ∧ p = pid
  · obtain ⟨h1, h2⟩ := h
    subst h1
    subst h2
    simp [countPair, List.filter_append, List.filter_cons, isPair]
  · have hf : isPair u p ⟨uid, pid⟩ = false := by
      simp only [isPair, Bool.and_eq_false_iff, beq_eq_false_iff_ne, ne_eq]
      by_cases h1 : uid = u
      · exact Or.inr fun h2 => h ⟨h1.symm, h2.symm⟩
      · exact Or.inl h1
    simp [countPair, List.filter_append, List.filter_cons, hf, h]

/-- Pair count of a cons cell. -/
theorem countPair_cons (uid pid : Nat) (r : RelRow) (rows : List RelRow) :
    countPair uid pid (r :: rows) =
      (if isPair uid pid r then 1 else 0) + countPair uid pid rows := by
  simp only [countPair, List.filter_cons]
  split <;> simp [Nat.add_comm]

/-- If a pair is absent, deleting its first occurrence after appending
one row for it restores the original list. -/
theorem deleteFirstRow_append_absent (uid pid : Nat) (rows : List RelRow)
    (h : countPair uid pid rows = 0) :
    deleteFirstRow uid pid (rows ++ [⟨uid, pid⟩]) = rows := by
  induction rows with
  | nil => simp [deleteFirstRow, isPair]
  | cons r rs ih =>
    rw [countPair_cons] at h
    by_cases hr : isPair uid pid r
    · rw [if_pos hr] at h
      omega
    · rw [if_neg hr] at h
      simp only [Nat.zero_add] at h
      simp [deleteFirstRow, hr, ih h]

/-- The boolean the like handler reports is `true` exactly when no row
for the pair existed before the request. -/
theorem like_fst_iff (uid pid : Nat) (rows : List RelRow) :
    (like uid pid rows).1 = true ↔ countPair uid pid rows = 0 := by
  rcases hf : rows.find? (isPair uid pid) with _ | r
  · simp [like, hf, (find?_isPair_eq_none uid pid rows).1 hf]
  · have hne : countPair uid pid rows ≠ 0 := fun hc => by
      have := (find?_isPair_eq_none uid pid rows).2 hc
      rw [hf] at this
      cases this
    simp [like, hf, hne]

/-- Under the at-most-one-row invariant, a toggle flips the pair's row
count between 0 and 1. -/
theorem like_snd_count (uid pid : Nat) (rows : List RelRow)
    (h : countPair uid pid rows ≤ 1) :
    countPair uid pid (like uid pid rows).2 =
      1 - countPair uid pid rows := by
  rcases hf : rows.find? (isPair uid pid) with _ | r
  · have h0 := (find?_isPair_eq_none uid pid rows).1 hf
    simp [like, hf, countPair_append_single, h0]
  · have hne : countPair uid pid rows ≠ 0 := fun hc => by
      have := (find?_isPair_eq_none uid pid rows).2 hc
      rw [hf] at this
      cases this
    have h1 : countPair uid pid rows = 1 := by omega
    simp [like, hf, countPair_deleteFirstRow_self, h1]

/-- A toggle for one pair never changes another pair's row count. -/
theorem like_snd_count_other (uid pid u p : Nat) (rows : List RelRow)
    (hne : ¬(u = uid ∧ p = pid)) :
    countPair u p (like uid pid rows).2 = countPair u p rows := by
  rcases hf : rows.find? (isPair uid pid) with _ | r
  · simp [like, hf, countPair_append_single, hne]
  · simp [like, hf, countPair_deleteFirstRow_other uid pid u p rows hne]

/-- One toggle preserves the at-most-one-row-per-pair invariant. -/
theorem like_preserves_inv (uid pid : Nat) (rows : List RelRow)
    (h : ∀ u p, countPair u p rows ≤ 1) :
    ∀ u p, countPair u p (like uid pid rows).2 ≤ 1 := by
  intro u p
  by_cases he : u = uid ∧ p = pid
  · obtain ⟨h1, h2⟩ := he
    subst h1
    subst h2
    rw [like_snd_count u p rows (h u p)]
    omega
  · rw [like_snd_count_other uid pid u p rows he]
    exact h u p

/-- Any sequence of toggles preserves the at-most-one-row-per-pair
invariant. -/
theorem applyToggles_preserves_inv (ops : List (Nat × Nat))
    (rows : List RelRow) (h : ∀ u p, countPair u p rows ≤ 1) :
    ∀ u p, countPair u p (applyToggles ops rows) ≤ 1 := by
  induction ops generalizing rows with
  | nil => exact h
  | cons op ops ih =>
    simp only [applyToggles, List.foldl_cons] at ih ⊢
    exact ih _ (like_preserves_inv op.1 op.2 rows h)

/-- Two consecutive toggles on the same pair restore every pair's row
count (under the at-most-one-row invariant). -/
theorem like_double (uid pid : Nat) (rows : List RelRow)
    (h : countPair uid pid rows ≤ 1) (u p : Nat) :
    countPair u p (like uid pid (like uid pid rows).2).2 =
      countPair u p rows := by
  by_cases hc : countPair uid pid rows = 0
  · rcases hf : rows.find? (isPair uid pid) with _ | r
    · have hs : (like uid pid rows).2 = rows ++ [RelRow.mk uid pid] := by
        simp [like, hf]
      have hc1 : countPair uid pid (rows ++ [RelRow.mk uid pid]) = 1 := by
        rw [countPair_append_single]
        simp [hc]
      rcases hf2 : List.find? (isPair uid pid) (rows ++ [RelRow.mk uid pid])
        with _ | r2
      · have := (find?_isPair_eq_none uid pid
          (rows ++ [RelRow.mk uid pid])).1 hf2
        omega
      · have hs2 : (like uid pid (rows ++ [RelRow.mk uid pid])).2 =
            deleteFirstRow uid pid (rows ++ [RelRow.mk uid pid]) := by
          simp only [like]
          rw [hf2]
        rw [hs, hs2, deleteFirstRow_append_absent uid pid rows hc]
    · have := (find?_isPair_eq_none uid pid rows).2 hc
      rw [hf] at this
      cases this
  · have hc1 : countPair uid pid rows = 1 := by omega
    rcases hf : rows.find? (isPair uid pid) with _ | r
    · have := (find?_isPair_eq_none uid pid rows).1 hf
      omega
    · have hs : (like uid pid rows).2 = deleteFirstRow uid pid rows := by
        simp [like, hf]
      have h0 : countPair uid pid (deleteFirstRow uid pid rows) = 0 := by
        rw [countPair_deleteFirstRow_self, hc1]
      have hf2 : (deleteFirstRow uid pid rows).find? (isPair uid pid) = none :=
        (find?_isPair_eq_none uid pid _).2 h0
      have hs2 : (like uid pid (deleteFirstRow uid pid rows)).2 =
          deleteFirstRow uid pid rows ++ [⟨uid, pid⟩] := by
        simp [like, hf2]
      rw [hs, hs2, countPair_append_single]
      by_cases he : u = uid ∧ p = pid
      · obtain ⟨e1, e2⟩ := he
        subst e1
        subst e2
        rw [countPair_deleteFirstRow_self, if_pos ⟨rfl, rfl⟩]
        omega
      · rw [countPair_deleteFirstRow_other uid pid u p rows he, if_neg he]
        omega

/-- C5: a like (or save) toggle reports `true` exactly when no relation
row for the pair existed (it then creates one) and `false` exactly when
one existed (it then deletes it); the reported boolean equals whether a
row exists after the operation; two consecutive toggles by the same user
on the same photo restore every pair's row count; starting from at most
one row per pair, any sequence of toggles keeps every pair's count at 0
or 1; and the save handler is the same operation as the like handler. -/
theorem like_save_toggle_spec (uid pid : Nat) (rows : List RelRow)
    (h : countPair uid pid rows ≤ 1) :
    ((like uid pid rows).1 = true ↔ countPair uid pid rows = 0) ∧
    ((like uid pid rows).1 = true ↔
      0 < countPair uid pid (like uid pid rows).2) ∧
    (∀ u p, countPair u p (like uid pid (like uid pid rows).2).2 =
      countPair u p rows) ∧
    (∀ rows₀, (∀ u p, countPair u p rows₀ ≤ 1) →
      ∀ ops u p, countPair u p (applyToggles ops rows₀) ≤ 1) ∧
    save = like := by
  refine ⟨like_fst_iff uid pid rows, ?_, like_double uid pid rows h,
    fun rows₀ h₀ ops u p => applyToggles_preserves_inv ops rows₀ h₀ u p, rfl⟩
  rw [like_fst_iff, like_snd_count uid pid rows h]
  omega

/-- Witness for C5 on an empty relation table. -/
theorem like_save_toggle_spec_witness :
    countPair 1 2 [] ≤ 1 ∧
    (((like 1 2 []).1 = true ↔ countPair 1 2 [] = 0) ∧
      ((like 1 2 []).1 = true ↔ 0 < countPair 1 2 (like 1 2 []).2) ∧
      (∀ u p, countPair u p (like 1 2 (like 1 2 []).2).2 =
        countPair u p []) ∧
      (∀ rows₀, (∀ u p, countPair u p rows₀ ≤ 1) →
        ∀ ops u p, countPair u p (applyToggles ops rows₀) ≤ 1) ∧
      save = like) :=
  ⟨by decide, like_save_toggle_spec 1 2 [] (by decide)⟩

/-- C7: an upload request with a missing file or a missing title is
rejected with no partial writes: the Photo table and the set of blob
writes are exactly as before the request. -/
theorem upload_missing_fields_spec (sec : String → String) (now : String)
    (blobConfigured : Bool) (role : String) (uid : Nat)
    (form : UploadForm) (st : UploadState)
    (h : form.photo = none ∨ form.title = none) :
    (creator_dashboard_post sec now blobConfigured role uid form st).1 = st ∧
    (creator_dashboard_post sec now blobConfigured role uid form st).1.photos
      = st.photos ∧
    (creator_dashboard_post sec now blobConfigured role uid
      form st).1.blobWrites = st.blobWrites := by
  have key :
      (creator_dashboard_post sec now blobConfigured role uid form st).1
        = st := by
    unfold creator_dashboard_post
    split
    · rfl
    · rcases h with h | h
      · rw [h]
      · rw [h]
        cases form.photo <;> rfl
  exact ⟨key, by rw [key], by rw [key]⟩

/-- Witness for C7 at a concrete titleless upload request. -/
theorem upload_missing_fields_spec_witness :
    ((UploadForm.mk (some ⟨"a.jpg", ⟨1, 1, 100, 1, 1, 1⟩⟩) none none
        none none).photo = none ∨
      (UploadForm.mk (some ⟨"a.jpg", ⟨1, 1, 100, 1, 1, 1⟩⟩) none none
        none none).title = none) ∧
    ((creator_dashboard_post (fun s => s) "20250101" false "creator" 1
        (UploadForm.mk (some ⟨"a.jpg", ⟨1, 1, 100, 1, 1, 1⟩⟩) none none
          none none) ⟨[], []⟩).1 = ⟨[], []⟩ ∧
      (creator_dashboard_post (fun s => s) "20250101" false "creator" 1
        (UploadForm.mk (some ⟨"a.jpg", ⟨1, 1, 100, 1, 1, 1⟩⟩) none none
          none none) ⟨[], []⟩).1.photos = (⟨[], []⟩ : UploadState).photos ∧
      (creator_dashboard_post (fun s => s) "20250101" false "creator" 1
        (UploadForm.mk (some ⟨"a.jpg", ⟨1, 1, 100, 1, 1, 1⟩⟩) none none
          none none) ⟨[], []⟩).1.blobWrites =
        (⟨[], []⟩ : UploadState).blobWrites) :=
  ⟨Or.inr rfl,
    upload_missing_fields_spec (fun s => s) "20250101" false "creator" 1
      (UploadForm.mk (some ⟨"a.jpg", ⟨1, 1, 100, 1, 1, 1⟩⟩) none none
        none none) ⟨[], []⟩ (Or.inr rfl)⟩

/-- C8 counterexample: a registration request that supplies the role
"admin" creates a user whose role is "admin", outside
{creator, consumer}. -/
theorem register_role_cex :
    ((register_post (fun s => s) ⟨"eve", "pw", some "admin"⟩ []).map
        (fun u => u.role)) = ["admin"] ∧
      ¬("admin" = "creator" ∨ "admin" = "consumer") := by decide

/-- C8 (amended): registration appends exactly one user whose role is
the role string supplied by the request — with no restriction to
{creator, consumer} — and "consumer" when the request supplies none;
existing users are untouched. -/
theorem register_role_spec (hash : String → String) (form : RegisterForm)
    (users : List UserRec) :
    (register_post hash form users).map (fun u => u.role) =
      users.map (fun u => u.role) ++ [form.role.getD "consumer"] ∧
    (register_post hash form users).map (fun u => u.username) =
      users.map (fun u => u.username) ++ [form.username] := by
  simp [register_post]

/-- `Char.ofNat` round-trips on valid code points. -/
theorem toNat_ofNat_valid (m : Nat) (h : m.isValidChar) :
    (Char.ofNat m).toNat = m := by
  rw [Char.ofNat, dif_pos h]
  simp [Char.ofNatAux, Char.toNat, UInt32.toNat]

/-- Case folding never produces a character outside the lowercase-letter
range, so it cannot introduce a target character below 'a' or above 'z'. -/
theorem toLower_ne (c w : Char) (hw : w.toNat < 97 ∨ 122 < w.toNat)
    (h : c ≠ w) : Char.toLower c ≠ w := by
  intro hc
  unfold Char.toLower at hc
  simp only [ge_iff_le] at hc
  split at hc
  · rename_i hr
    have hv : Nat.isValidChar (c.toNat + 32) := by
      left
      omega
    have h2 := congrArg Char.toNat hc
    rw [toNat_ofNat_valid _ hv] at h2
    omega
  · exact h hc

/-- Case folding preserves wildcard-freeness. -/
theorem noWild_map_toLower (l : List Char) (h : noWild l) :
    noWild (l.map Char.toLower) := by
  intro c hc
  rcases List.mem_map.1 hc with ⟨c', hc', rfl⟩
  obtain ⟨h1, h2⟩ := h c' hc'
  exact ⟨toLower_ne c' '%' (by decide) h1, toLower_ne c' '_' (by decide) h2⟩

/-- The empty string has only empty leading segments. -/
theorem leadsWith_nil (ps : List Char) : leadsWith [] ps = ps.isEmpty := by
  cases ps <;> rfl

/-- The pattern `%` alone matches every string. -/
theorem likeMatch_one_pct (s : List Char) : likeMatch ['%'] s = true := by
  have h : likeMatch ['%'] s = (List.tails s).any fun t => likeMatch [] t :=
    rfl
  rw [h, List.any_eq_true]
  refine ⟨[], ?_, rfl⟩
  rw [List.mem_tails]
  exact List.nil_suffix

/-- A wildcard-free pattern followed by `%` matches exactly the strings
it leads. -/
theorem likeMatch_append_pct (ps : List Char) (hw : noWild ps) :
    ∀ s, likeMatch (ps ++ ['%']) s = leadsWith s ps := by
  induction ps with
  | nil =>
    intro s
    rw [List.nil_append, likeMatch_one_pct]
    cases s <;> rfl
  | cons c ps' ih =>
    intro s
    have hc := hw c (List.mem_cons_self c ps')
    have hw' : noWild ps' := fun x hx => hw x (List.mem_cons_of_mem _ hx)
    cases s with
    | nil =>
      rw [List.cons_append, likeMatch.eq_2, if_neg hc.1]
      rfl
    | cons d t =>
      rw [List.cons_append, likeMatch.eq_3, if_neg hc.1, if_neg hc.2,
        ih hw' t]
      by_cases hcd : c = d
      · subst hcd
        simp [leadsWith]
      · have hdc : ¬ d = c := fun h => hcd h.symm
        have h1 : (c == d) = false := beq_eq_false_iff_ne.2 hcd
        have h2 : (d == c) = false := beq_eq_false_iff_ne.2 hdc
        simp [leadsWith, h1, h2]

/-- The `%pattern%` form of a wildcard-free pattern matches exactly the
strings containing it as a contiguous substring. -/
theorem likeMatch_wrap (ps : List Char) (hw : noWild ps) :
    ∀ s, likeMatch ('%' :: (ps ++ ['%'])) s = hasSub s ps := by
  intro s
  have h : likeMatch ('%' :: (ps ++ ['%'])) s =
      (List.tails s).any fun t => likeMatch (ps ++ ['%']) t := rfl
  have h2 : ((List.tails s).any fun t => likeMatch (ps ++ ['%']) t) =
      (List.tails s).any fun t => leadsWith t ps :=
    congrArg (List.any (List.tails s))
      (funext fun t => likeMatch_append_pct ps hw t)
  rw [h, h2]
  clear h h2
  induction s with
  | nil =>
    rw [show List.tails ([] : List Char) = [[]] from rfl]
    rw [show (([[]] : List (List Char)).any fun t => leadsWith t ps) =
      leadsWith [] ps from by simp]
    rw [leadsWith_nil]
    rfl
  | cons a t ih =>
    rw [List.tails_cons, List.any_cons, ih]
    rfl

/-- `ILIKE` with a `%`-wrapped wildcard-free term is exactly
case-insensitive substring containment. -/
theorem ilikeB_eq_ciContains (s q : String) (hw : noWild q.data) :
    ilikeB s ("%" ++ q ++ "%") = ciContains s q := by
  unfold ilikeB ciContains
  have hdata : ("%" ++ q ++ "%").data.map Char.toLower =
      '%' :: (q.data.map Char.toLower ++ ['%']) := by
    have h0 : ("%" ++ q ++ "%").data = '%' :: (q.data ++ ['%']) := rfl
    have hpc : Char.toLower '%' = '%' := by decide
    rw [h0, List.map_cons, List.map_append, hpc]
    rfl
  rw [hdata, likeMatch_wrap _ (noWild_map_toLower q.data hw)]

/-- Under a wildcard-free term, the feed's SQL filter coincides with the
spec's case-insensitive containment predicate. -/
theorem feedFilterRow_eq_spec (db : FeedDB) (q : String) (p : PhotoRow)
    (hw : noWild q.data) :
    feedFilterRow db q p = specFeedMatch db q p := by
  unfold feedFilterRow specFeedMatch
  refine congrArg (List.any db.users) (funext fun u => ?_)
  rw [ilikeB_eq_ciContains p.title q hw, ilikeB_eq_ciContains u.username q hw]
  cases p.caption with
  | none => rfl
  | some c => simp [ilikeB_eq_ciContains c q hw]

/-- C6 counterexample: with the search term "a_b" the feed returns a
photo titled "axb" (owner "u"), although neither the title, the caption,
nor the username case-insensitively contains "a_b" — the underscore acts
as a SQL `LIKE` single-character wildcard. -/
theorem feed_wildcard_cex :
    (PhotoRow.mk 1 "axb" none 0 1) ∈
      feed ⟨[⟨1, "u"⟩], [⟨1, "axb", none, 0, 1⟩]⟩ (some "a_b") ∧
    specFeedMatch ⟨[⟨1, "u"⟩], [⟨1, "axb", none, 0, 1⟩]⟩ "a_b"
      ⟨1, "axb", none, 0, 1⟩ = false := by decide

/-- C6 (amended): for every photo store and every supplied non-empty
search term free of SQL `LIKE` wildcard characters (`%`, `_`), the feed
returns exactly those Photos for which some owner row matches and the
title, caption, or owning user's username case-insensitively contains
the term; with no term it returns all Photos ordered by upload
timestamp descending. -/
theorem feed_query_spec (db : FeedDB) (q : String) (hq : q ≠ "")
    (hw : noWild q.data) :
    feed db (some q) = db.photos.filter (specFeedMatch db q) ∧
    (∀ p, p ∈ feed db (some q) ↔
      p ∈ db.photos ∧ specFeedMatch db q p = true) ∧
    List.Perm (feed db none) db.photos ∧
    List.Sorted newerFirst (feed db none) := by
  have hfeq : feed db (some q) = db.photos.filter (specFeedMatch db q) := by
    show (if q = "" then List.insertionSort newerFirst db.photos
      else db.photos.filter (feedFilterRow db q)) =
        db.photos.filter (specFeedMatch db q)
    rw [if_neg hq]
    exact List.filter_congr fun p _ => feedFilterRow_eq_spec db q p hw
  refine ⟨hfeq, ?_, ?_, ?_⟩
  · intro p
    rw [hfeq, List.mem_filter]
  · exact List.perm_insertionSort newerFirst db.photos
  · exact List.sorted_insertionSort newerFirst db.photos

/-- Witness for C6 at a concrete store and the term "ali". -/
theorem feed_query_spec_witness :
    ("ali" ≠ "") ∧ noWild ("ali".data) ∧
    (feed ⟨[⟨1, "Alice"⟩], [⟨1, "Sunset", none, 5, 1⟩,
        ⟨2, "Cat", some "cute", 9, 1⟩]⟩ (some "ali") =
      (FeedDB.mk [⟨1, "Alice"⟩] [⟨1, "Sunset", none, 5, 1⟩,
        ⟨2, "Cat", some "cute", 9, 1⟩]).photos.filter
        (specFeedMatch ⟨[⟨1, "Alice"⟩], [⟨1, "Sunset", none, 5, 1⟩,
          ⟨2, "Cat", some "cute", 9, 1⟩]⟩ "ali") ∧
      (∀ p, p ∈ feed ⟨[⟨1, "Alice"⟩], [⟨1, "Sunset", none, 5, 1⟩,
          ⟨2, "Cat", some "cute", 9, 1⟩]⟩ (some "ali") ↔
        p ∈ (FeedDB.mk [⟨1, "Alice"⟩] [⟨1, "Sunset", none, 5, 1⟩,
          ⟨2, "Cat", some "cute", 9, 1⟩]).photos ∧
        specFeedMatch ⟨[⟨1, "Alice"⟩], [⟨1, "Sunset", none, 5, 1⟩,
          ⟨2, "Cat", some "cute", 9, 1⟩]⟩ "ali" p = true) ∧
      List.Perm (feed ⟨[⟨1, "Alice"⟩], [⟨1, "Sunset", none, 5, 1⟩,
          ⟨2, "Cat", some "cute", 9, 1⟩]⟩ none)
        (FeedDB.mk [⟨1, "Alice"⟩] [⟨1, "Sunset", none, 5, 1⟩,
          ⟨2, "Cat", some "cute", 9, 1⟩]).photos ∧
      List.Sorted newerFirst
        (feed ⟨[⟨1, "Alice"⟩], [⟨1, "Sunset", none, 5, 1⟩,
          ⟨2, "Cat", some "cute", 9, 1⟩]⟩ none)) :=
  ⟨by decide, by decide,
    feed_query_spec ⟨[⟨1, "Alice"⟩], [⟨1, "Sunset", none, 5, 1⟩,
      ⟨2, "Cat", some "cute", 9, 1⟩]⟩ "ali" (by decide) (by decide)⟩
